import Mathlib

/-!
Verification of the chalk rust-ir layer (`src/chalk-rust-ir/src/lib.rs`):
the binder/substitution model and the inline-bound-to-clause lowering
algorithm. The declaration entities and lowering functions below are
translated directly from the source; the underlying term representation
(types, lifetimes, parameters, substitutions, the shift operation), which
lives in the external `chalk-ir` crate, is modelled from the specification
of its interface.
-/

namespace ChalkRustIr

/-- Modelled from the spec: a generic parameter's kind tag — each generic
parameter is either type-like or lifetime-like (`ParameterKind<()>` in
chalk-ir). A scope's shape is an ordered sequence of such tags. -/
inductive ParameterKind where
  | ty
  | lifetime
deriving DecidableEq, Repr

mutual

/-- Modelled from the spec: the opaque type-term representation supplied by
the term backend (`Ty` in chalk-ir). The core needs bound-variable type
terms at a `(depth, index)` pair, alias/projection terms of an associated
type identifier applied to a substitution, and otherwise-opaque concrete
type atoms. -/
inductive Ty where
  | boundVar (depth index : Nat)
  | alias (associated_ty_id : Nat) (substitution : Parameters)
  | atom (name : Nat)
deriving DecidableEq, Repr

/-- Modelled from the spec: the opaque lifetime-term representation
(`Lifetime` in chalk-ir): bound-variable lifetime terms at a
`(depth, index)` pair, and otherwise-opaque concrete lifetime atoms. -/
inductive Lifetime where
  | boundVar (depth index : Nat)
  | atom (name : Nat)
deriving DecidableEq, Repr

/-- Modelled from the spec: a generic argument (`Parameter` in chalk-ir),
either a type term or a lifetime term. -/
inductive Parameter where
  | ty (t : Ty)
  | lifetime (l : Lifetime)
deriving DecidableEq, Repr

/-- Modelled from the spec: an ordered sequence of generic arguments, the
representation behind both `Vec<Parameter>` and `Substitution` in chalk-ir
(a substitution is constructed from an ordered sequence of arguments). -/
inductive Parameters where
  | nil
  | cons (p : Parameter) (rest : Parameters)
deriving DecidableEq, Repr

end

/-- Modelled from the spec: a substitution is built from an ordered
sequence of argument terms. -/
abbrev Substitution := Parameters

/-- Appending two ordered argument sequences (iterator chaining in the
source). -/
def Parameters.append : Parameters → Parameters → Parameters
  | .nil, ys => ys
  | .cons x xs, ys => .cons x (xs.append ys)

/-- Length of an argument sequence. -/
def Parameters.length : Parameters → Nat
  | .nil => 0
  | .cons _ xs => xs.length + 1

/-- Optional lookup in an argument sequence. -/
def Parameters.get? : Parameters → Nat → Option Parameter
  | .nil, _ => none
  | .cons x _, 0 => some x
  | .cons _ xs, n + 1 => xs.get? n

mutual

/-- Modelled from the spec: the "shift inward by one scope" capability of
the term backend (`shifted_in` in chalk-ir): every bound variable that
resolves outside the term must have its depth increased by 1 so that it
continues to resolve to the same logical parameter once the term is reused
one binder scope deeper. -/
def Ty.shiftedIn : Ty → Ty
  | .boundVar depth index => .boundVar (depth + 1) index
  | .alias id s => .alias id s.shiftedIn
  | .atom n => .atom n

/-- Modelled from the spec: shift inward by one scope, on lifetimes. -/
def Lifetime.shiftedIn : Lifetime → Lifetime
  | .boundVar depth index => .boundVar (depth + 1) index
  | .atom n => .atom n

/-- Modelled from the spec: shift inward by one scope, on parameters. -/
def Parameter.shiftedIn : Parameter → Parameter
  | .ty t => .ty t.shiftedIn
  | .lifetime l => .lifetime l.shiftedIn

/-- Modelled from the spec: shift inward by one scope, elementwise on an
argument sequence. -/
def Parameters.shiftedIn : Parameters → Parameters
  | .nil => .nil
  | .cons p rest => .cons p.shiftedIn rest.shiftedIn

end

mutual

/-- All bound-variable depths occurring in a type term, in order. -/
def Ty.boundVarDepths : Ty → List Nat
  | .boundVar depth _ => [depth]
  | .alias _ s => s.boundVarDepths
  | .atom _ => []

/-- All bound-variable depths occurring in a lifetime term. -/
def Lifetime.boundVarDepths : Lifetime → List Nat
  | .boundVar depth _ => [depth]
  | .atom _ => []

/-- All bound-variable depths occurring in a parameter. -/
def Parameter.boundVarDepths : Parameter → List Nat
  | .ty t => t.boundVarDepths
  | .lifetime l => l.boundVarDepths

/-- All bound-variable depths occurring in an argument sequence. -/
def Parameters.boundVarDepths : Parameters → List Nat
  | .nil => []
  | .cons p rest => p.boundVarDepths ++ rest.boundVarDepths

end

/-- Modelled from the spec: the binder container `Binders<V>` of chalk-ir:
an ordered list of parameter-kind tags (the shape of the scope) paired
with a value that may reference those parameters positionally. -/
structure Binders (V : Type) where
  binders : List ParameterKind
  value : V
deriving DecidableEq, Repr

/-- Modelled from the spec: a trait reference (`TraitRef` in chalk-ir): a
trait identifier applied to a substitution whose argument 0 is the self
type. -/
structure TraitRef where
  trait_id : Nat
  substitution : Substitution
deriving DecidableEq, Repr

/-- Modelled from the spec: an alias/projection term description
(`AliasTy` in chalk-ir): an associated type identifier applied to a
substitution. -/
structure AliasTy where
  associated_ty_id : Nat
  substitution : Substitution
deriving DecidableEq, Repr

/-- Modelled from the spec: an alias-equality constraint (`AliasEq` in
chalk-ir): the projection `aliasTy` (field `alias` in the source, a
reserved word here) equals the type `ty`. -/
structure AliasEq where
  aliasTy : AliasTy
  ty : Ty
deriving DecidableEq, Repr

/-- Modelled from the spec: a canonical clause (`WhereClause` in
chalk-ir): either "the trait reference is implemented" or an
alias-equality constraint. -/
inductive WhereClause where
  | implemented (trait_ref : TraitRef)
  | aliasEq (eq : AliasEq)
deriving DecidableEq, Repr

/-- A clause under a binder (`QuantifiedWhereClause` in chalk-ir). -/
abbrev QuantifiedWhereClause := Binders WhereClause

/-- `TraitBound` (source lines 249-253): a trait bound that does not know
what it is binding; the argument list omits the self type. -/
structure TraitBound where
  trait_id : Nat
  args_no_self : Parameters
deriving DecidableEq, Repr

/-- `TraitBound::as_trait_ref` (source lines 261-269): build the trait
reference whose substitution is the self type prepended to
`args_no_self`. -/
def TraitBound.as_trait_ref (b : TraitBound) (self_ty : Ty) : TraitRef :=
  { trait_id := b.trait_id
    substitution := .cons (Parameter.ty self_ty) b.args_no_self }

/-- `TraitBound::into_where_clauses` (source lines 256-259): exactly one
`Implemented` clause from the trait reference. -/
def TraitBound.into_where_clauses (b : TraitBound) (self_ty : Ty) : List WhereClause :=
  let trait_ref := b.as_trait_ref self_ty
  [WhereClause.implemented trait_ref]

/-- `AliasEqBound` (source lines 274-281): a trait bound together with an
associated type equality; `parameters` does not include the trait
parameters. -/
structure AliasEqBound where
  trait_bound : TraitBound
  associated_ty_id : Nat
  parameters : Parameters
  value : Ty
deriving DecidableEq, Repr

/-- `AliasEqBound::into_where_clauses` (source lines 284-305): the
`Implemented` clause of the embedded trait bound, then an `AliasEq` clause
whose projection substitution chains `parameters` with the trait
reference's full substitution. -/
def AliasEqBound.into_where_clauses (b : AliasEqBound) (self_ty : Ty) : List WhereClause :=
  let trait_ref := b.trait_bound.as_trait_ref self_ty
  let substitution := b.parameters.append trait_ref.substitution
  [WhereClause.implemented trait_ref,
   WhereClause.aliasEq
     { aliasTy := { associated_ty_id := b.associated_ty_id, substitution := substitution }
       ty := b.value }]

/-- `InlineBound` (source lines 201-204): a closed sum of the two bound
kinds. -/
inductive InlineBound where
  | traitBound (b : TraitBound)
  | aliasEqBound (b : AliasEqBound)
deriving DecidableEq, Repr

/-- `InlineBound::into_where_clauses` (source lines 223-228): dispatch on
the bound kind. -/
def InlineBound.into_where_clauses : InlineBound → Ty → List WhereClause
  | .traitBound b, self_ty => b.into_where_clauses self_ty
  | .aliasEqBound b, self_ty => b.into_where_clauses self_ty

/-- `QuantifiedInlineBound` (source line 207): an inline bound under its
own binder. -/
abbrev QuantifiedInlineBound := Binders InlineBound

/-- `QuantifiedInlineBound::into_where_clauses` (source lines 234-244):
shift `self_ty` inward by one scope, lower the inner bound with the
shifted self type, and wrap each resulting clause in a binder carrying
this bound's own shape. -/
def QuantifiedInlineBound.into_where_clauses (qb : QuantifiedInlineBound) (self_ty : Ty) :
    List QuantifiedWhereClause :=
  let self_ty := self_ty.shiftedIn
  (qb.value.into_where_clauses self_ty).map fun wc =>
    { binders := qb.binders, value := wc }

/-- `ToParameter::to_parameter_at_depth` for `(&ParameterKind<()>, usize)`
(source lines 339-354): a lifetime-like tag produces a bound-variable
lifetime term and a type-like tag produces a bound-variable type term, at
the given De Bruijn depth and the given index. -/
def to_parameter_at_depth (binder : ParameterKind) (index : Nat) (debruijn : Nat) : Parameter :=
  match binder with
  | .lifetime => Parameter.lifetime (Lifetime.boundVar debruijn index)
  | .ty => Parameter.ty (Ty.boundVar debruijn index)

/-- `ToParameter::to_parameter` (source lines 328-330): construct the
bound-variable reference at the innermost De Bruijn depth
(`DebruijnIndex::INNERMOST`, i.e. depth 0). -/
def to_parameter (binder : ParameterKind) (index : Nat) : Parameter :=
  to_parameter_at_depth binder index 0

/-- The kind tag of a parameter term (type-shaped or lifetime-shaped). -/
def Parameter.kindOf : Parameter → ParameterKind
  | .ty _ => .ty
  | .lifetime _ => .lifetime

/-- Read back the `(depth, index)` position of a bound-variable parameter
term; `none` when the term is not a bound-variable reference. -/
def Parameter.boundVarPosition : Parameter → Option (Nat × Nat)
  | .ty (.boundVar depth index) => some (depth, index)
  | .lifetime (.boundVar depth index) => some (depth, index)
  | _ => none

/-- The substitution built in `bounds_on_self` (source lines 419-422):
`binders.iter().zip(0..).map(|p| p.to_parameter(interner))`, i.e. each
position of the shape, starting at the given index, mapped to the
bound-variable reference of its own kind at that position. -/
def selfSubstitution : List ParameterKind → Nat → Parameters
  | [], _ => .nil
  | pk :: rest, i => .cons (to_parameter pk i) (selfSubstitution rest (i + 1))

/-- `AssociatedTyDatumBound` (source lines 394-403): the parts of an
associated type declaration in scope of the parameters. -/
structure AssociatedTyDatumBound where
  bounds : List QuantifiedInlineBound
  where_clauses : List QuantifiedWhereClause
deriving DecidableEq, Repr

/-- `AssociatedTyDatum` (source lines 373-389): an associated type
declaration inside a trait. -/
structure AssociatedTyDatum where
  trait_id : Nat
  id : Nat
  name : Nat
  binders : Binders AssociatedTyDatumBound
deriving DecidableEq, Repr

/-- `AssociatedTyDatum::bounds_on_self` (source lines 414-442): build the
self substitution mapping each binder position to itself, form the
self-projection alias of this declaration's own id applied to that
substitution, and lower every entry of `bounds` with that projection as
the self type, concatenating the results. -/
def AssociatedTyDatum.bounds_on_self (d : AssociatedTyDatum) : List QuantifiedWhereClause :=
  let binders := d.binders.binders
  let value := d.binders.value
  let substitution := selfSubstitution binders 0
  let self_ty := Ty.alias d.id substitution
  (value.bounds.map fun b => b.into_where_clauses self_ty).flatten

/-- `Polarity` (source lines 498-502): positive or negative
implementation polarity; there is no third variant. -/
inductive Polarity where
  | positive
  | negative
deriving DecidableEq, Repr

/-- `Polarity::is_positive` (source lines 505-510). -/
def Polarity.is_positive : Polarity → Bool
  | .positive => true
  | .negative => false

/-- `ImplType` (source lines 48-52). -/
inductive ImplType where
  | localImpl
  | externalImpl
deriving DecidableEq, Repr

/-- `ImplDatumBound` (source lines 42-46). -/
structure ImplDatumBound where
  trait_ref : TraitRef
  where_clauses : List QuantifiedWhereClause
deriving DecidableEq, Repr

/-- `ImplDatum` (source lines 24-30): an implementation declaration. -/
structure ImplDatum where
  polarity : Polarity
  binders : Binders ImplDatumBound
  impl_type : ImplType
  associated_ty_value_ids : List Nat
deriving DecidableEq, Repr

/-- `ImplDatum::is_positive` (source lines 33-35). -/
def ImplDatum.is_positive (d : ImplDatum) : Bool :=
  d.polarity.is_positive

/-- `ImplDatum::trait_id` (source lines 37-39): reads
`binders.value.trait_ref.trait_id`. -/
def ImplDatum.trait_id (d : ImplDatum) : Nat :=
  d.binders.value.trait_ref.trait_id

/-- `TraitFlags` (source lines 166-197). -/
structure TraitFlags where
  auto : Bool
  marker : Bool
  upstream : Bool
  fundamental : Bool
  non_enumerable : Bool
  coinductive : Bool
deriving DecidableEq, Repr

/-- `WellKnownTrait` (source lines 134-139). -/
inductive WellKnownTrait where
  | sizedTrait
  | copyTrait
  | cloneTrait
deriving DecidableEq, Repr

/-- `TraitDatumBound` (source lines 155-164). -/
structure TraitDatumBound where
  where_clauses : List QuantifiedWhereClause
deriving DecidableEq, Repr

/-- `TraitDatum` (source lines 115-130): a trait declaration. -/
structure TraitDatum where
  id : Nat
  binders : Binders TraitDatumBound
  flags : TraitFlags
  associated_ty_ids : List Nat
  well_known : Option WellKnownTrait
deriving DecidableEq, Repr

/-- `TraitDatum::is_auto_trait` (source lines 142-144). -/
def TraitDatum.is_auto_trait (d : TraitDatum) : Bool :=
  d.flags.auto

/-- `TraitDatum::is_non_enumerable_trait` (source lines 146-148). -/
def TraitDatum.is_non_enumerable_trait (d : TraitDatum) : Bool :=
  d.flags.non_enumerable

/-- `TraitDatum::is_coinductive_trait` (source lines 150-152). -/
def TraitDatum.is_coinductive_trait (d : TraitDatum) : Bool :=
  d.flags.coinductive

/-- Modelled from the spec: the nameable type-constructor reference
(`TypeName` in chalk-ir) that a nominal type identifier casts into. -/
inductive TypeName where
  | struct (id : Nat)
  | associatedType (id : Nat)
  | error
deriving DecidableEq, Repr

/-- Modelled from the spec: the coercion from a nominal type identifier to
a nameable type reference (`StructId::cast::<TypeName>` in chalk-ir). -/
def StructId.cast (id : Nat) : TypeName :=
  TypeName.struct id

/-- `StructFlags` (source lines 84-88). -/
structure StructFlags where
  upstream : Bool
  fundamental : Bool
deriving DecidableEq, Repr

/-- `StructDatumBound` (source lines 78-82). -/
structure StructDatumBound where
  fields : List Ty
  where_clauses : List QuantifiedWhereClause
deriving DecidableEq, Repr

/-- `StructDatum` (source lines 65-70): a nominal type declaration. -/
structure StructDatum where
  binders : Binders StructDatumBound
  id : Nat
  flags : StructFlags
deriving DecidableEq, Repr

/-- `StructDatum::name` (source lines 72-76): the derived type name is the
cast of the declaration's identifier. -/
def StructDatum.name (d : StructDatum) : TypeName :=
  StructId.cast d.id

mutual

/-- Shifting a type inward by one scope increases every bound-variable
depth in it by exactly 1. -/
theorem ty_shiftedIn_depth_map (t : Ty) :
    t.shiftedIn.boundVarDepths = t.boundVarDepths.map (· + 1) :=
  match t with
  | .boundVar _ _ => rfl
  | .alias _ s => by
      simp only [Ty.shiftedIn, Ty.boundVarDepths]
      exact parameters_shiftedIn_depth_map s
  | .atom _ => rfl

/-- Shifting a lifetime inward by one scope increases every bound-variable
depth in it by exactly 1. -/
theorem lifetime_shiftedIn_depth_map (l : Lifetime) :
    l.shiftedIn.boundVarDepths = l.boundVarDepths.map (· + 1) :=
  match l with
  | .boundVar _ _ => rfl
  | .atom _ => rfl

/-- Shifting a parameter inward by one scope increases every
bound-variable depth in it by exactly 1. -/
theorem parameter_shiftedIn_depth_map (p : Parameter) :
    p.shiftedIn.boundVarDepths = p.boundVarDepths.map (· + 1) :=
  match p with
  | .ty t => ty_shiftedIn_depth_map t
  | .lifetime l => lifetime_shiftedIn_depth_map l

/-- Shifting an argument sequence inward by one scope increases every
bound-variable depth in it by exactly 1. -/
theorem parameters_shiftedIn_depth_map (s : Parameters) :
    s.shiftedIn.boundVarDepths = s.boundVarDepths.map (· + 1) :=
  match s with
  | .nil => rfl
  | .cons p rest => by
      simp only [Parameters.shiftedIn, Parameters.boundVarDepths, List.map_append]
      rw [parameter_shiftedIn_depth_map p, parameters_shiftedIn_depth_map rest]

end

/-- Lookup into the self substitution: position `i` holds the
bound-variable reference, at the innermost depth, of the shape's `i`-th
kind at index `start + i`. -/
theorem selfSubstitution_get (shape : List ParameterKind) (start i : Nat)
    (h : i < shape.length) :
    (selfSubstitution shape start).get? i
      = some (to_parameter (shape.get ⟨i, h⟩) (start + i)) := by
  induction shape generalizing start i with
  | nil => exact absurd h (Nat.not_lt_zero i)
  | cons pk rest ih =>
      cases i with
      | zero => rfl
      | succ j =>
          have hj : j < rest.length := Nat.lt_of_succ_lt_succ h
          have harith : start + 1 + j = start + (j + 1) := by omega
          calc (selfSubstitution (pk :: rest) start).get? (j + 1)
              = (selfSubstitution rest (start + 1)).get? j := rfl
            _ = some (to_parameter (rest.get ⟨j, hj⟩) (start + 1 + j)) := ih (start + 1) j hj
            _ = some (to_parameter ((pk :: rest).get ⟨j + 1, h⟩) (start + (j + 1))) := by
                rw [harith, List.get_cons_succ]

/-- C1: lowering a `QuantifiedInlineBound` first shifts `self_ty` inward
by exactly one binder scope, then delegates to the inner bound's lowering
with the shifted self type, and wraps each resulting clause in a binder
carrying this bound's own parameter-kind shape; every bound-variable
reference in the shifted self type has its depth increased by exactly 1
relative to the unshifted term. -/
theorem quantifiedInlineBound_lowering_shifts_self_ty_in_and_rewraps
    (qb : QuantifiedInlineBound) (self_ty : Ty) :
    qb.into_where_clauses self_ty
        = (qb.value.into_where_clauses self_ty.shiftedIn).map
            (fun wc => { binders := qb.binders, value := wc })
      ∧ (self_ty.shiftedIn).boundVarDepths = self_ty.boundVarDepths.map (· + 1) :=
  ⟨rfl, ty_shiftedIn_depth_map self_ty⟩

/-- C2: lowering an `AliasEqBound` yields exactly two clauses in order:
first the `Implemented` clause of the embedded trait bound applied to the
self type, second an `AliasEq` clause naming the bound's associated type
id, whose substitution is `parameters` followed by the trait reference's
full argument list (self type first, then `args_no_self`), and whose
right-hand side is the bound's `value`. -/
theorem aliasEqBound_lowering_two_clauses_ordered (b : AliasEqBound) (X : Ty) :
    b.into_where_clauses X
      = [WhereClause.implemented
           { trait_id := b.trait_bound.trait_id
             substitution := .cons (Parameter.ty X) b.trait_bound.args_no_self },
         WhereClause.aliasEq
           { aliasTy :=
               { associated_ty_id := b.associated_ty_id
                 substitution := b.parameters.append
                   (.cons (Parameter.ty X) b.trait_bound.args_no_self) }
             ty := b.value }] :=
  rfl

/-- C3: lowering a `TraitBound` yields exactly one clause: an
`Implemented` clause for its trait id whose argument list is the self type
in position 0 followed by `args_no_self` in order. -/
theorem traitBound_lowering_one_clause_self_first (b : TraitBound) (X : Ty) :
    b.into_where_clauses X
      = [WhereClause.implemented
           { trait_id := b.trait_id
             substitution := .cons (Parameter.ty X) b.args_no_self }] :=
  rfl

/-- C4: `bounds_on_self` lowers every entry of the bounds list with the
self-projection alias of the declaration's own id applied to the
identity-like substitution, concatenating the clause sequences in order;
and that substitution maps each position `i` of the binder shape to the
bound-variable reference of the shape's `i`-th kind at depth 0 and index
`i`. -/
theorem assocTyDatum_bounds_on_self_spec (d : AssociatedTyDatum) :
    d.bounds_on_self
        = ((d.binders.value.bounds.map fun b =>
              b.into_where_clauses
                (Ty.alias d.id (selfSubstitution d.binders.binders 0))).flatten)
      ∧ ∀ i, (h : i < d.binders.binders.length) →
          (selfSubstitution d.binders.binders 0).get? i
              = some (to_parameter (d.binders.binders.get ⟨i, h⟩) i)
            ∧ (to_parameter (d.binders.binders.get ⟨i, h⟩) i).boundVarPosition
              = some (0, i)
            ∧ (to_parameter (d.binders.binders.get ⟨i, h⟩) i).kindOf
              = d.binders.binders.get ⟨i, h⟩ := by
  refine ⟨rfl, fun i h => ⟨?_, ?_, ?_⟩⟩
  · have := selfSubstitution_get d.binders.binders 0 i h
    simpa using this
  · cases d.binders.binders.get ⟨i, h⟩ <;> rfl
  · cases d.binders.binders.get ⟨i, h⟩ <;> rfl

/-- Witness for C4 at a concrete declaration with shape
`[ty, lifetime]` and one trait bound in its bounds list. -/
theorem assocTyDatum_bounds_on_self_spec_witness :
    (1 : Nat) < ([ParameterKind.ty, ParameterKind.lifetime] : List ParameterKind).length
    ∧ ((selfSubstitution [ParameterKind.ty, ParameterKind.lifetime] 0).get? 1
          = some (to_parameter ParameterKind.lifetime 1)
        ∧ (to_parameter ParameterKind.lifetime 1).boundVarPosition = some (0, 1)
        ∧ (to_parameter ParameterKind.lifetime 1).kindOf = ParameterKind.lifetime) :=
  ⟨by decide,
   (assocTyDatum_bounds_on_self_spec
      { trait_id := 0, id := 7, name := 3
        binders :=
          { binders := [ParameterKind.ty, ParameterKind.lifetime]
            value :=
              { bounds :=
                  [{ binders := []
                     value := InlineBound.traitBound { trait_id := 5, args_no_self := .nil } }]
                where_clauses := [] } } }).2 1 (by decide)⟩

/-- C5: `to_parameter` produces the bound-variable term at the innermost
depth (depth 0) with the given index, of the kind matching the tag, and
reading back the position recovers `(0, i)`. -/
theorem to_parameter_innermost_depth_and_kind (binder : ParameterKind) (i : Nat) :
    to_parameter binder i = to_parameter_at_depth binder i 0
      ∧ (to_parameter_at_depth binder i 0).boundVarPosition = some (0, i)
      ∧ (to_parameter_at_depth binder i 0).kindOf = binder := by
  cases binder <;> exact ⟨rfl, rfl, rfl⟩

/-- C6: `bounds_on_self` of an associated type declaration whose bounds
list is empty is the empty clause sequence. -/
theorem bounds_on_self_empty_bounds (d : AssociatedTyDatum)
    (h : d.binders.value.bounds = []) : d.bounds_on_self = [] := by
  simp only [AssociatedTyDatum.bounds_on_self, h, List.map_nil, List.flatten_nil]

/-- Witness for C6 at a concrete declaration with empty bounds. -/
theorem bounds_on_self_empty_bounds_witness :
    ({ trait_id := 0, id := 1, name := 2
       binders :=
         { binders := [ParameterKind.ty]
           value := { bounds := [], where_clauses := [] } } } :
        AssociatedTyDatum).bounds_on_self = [] :=
  bounds_on_self_empty_bounds _ rfl

/-- C7: `is_positive` on an implementation declaration is true exactly
when its polarity is `positive` and false exactly when it is `negative`,
and polarity has no third state. -/
theorem implDatum_is_positive_iff_polarity (d : ImplDatum) :
    (d.is_positive = true ↔ d.polarity = Polarity.positive)
      ∧ (d.is_positive = false ↔ d.polarity = Polarity.negative)
      ∧ (d.polarity = Polarity.positive ∨ d.polarity = Polarity.negative) := by
  cases h : d.polarity <;>
    simp [ImplDatum.is_positive, Polarity.is_positive, h]

/-- Witness for C7 at a concrete positive implementation declaration. -/
theorem implDatum_is_positive_iff_polarity_witness :
    (({ polarity := Polarity.positive
        binders :=
          { binders := []
            value :=
              { trait_ref := { trait_id := 0, substitution := .nil }
                where_clauses := [] } }
        impl_type := ImplType.localImpl
        associated_ty_value_ids := [] } : ImplDatum).is_positive = true
      ↔ Polarity.positive = Polarity.positive) :=
  (implDatum_is_positive_iff_polarity _).1

/-- C8: the trait declaration queries are direct flag projections, and an
implementation declaration's `trait_id` reads
`binders.value.trait_ref.trait_id`. -/
theorem traitDatum_flag_projections_and_implDatum_trait_id
    (t : TraitDatum) (d : ImplDatum) :
    t.is_auto_trait = t.flags.auto
      ∧ t.is_non_enumerable_trait = t.flags.non_enumerable
      ∧ t.is_coinductive_trait = t.flags.coinductive
      ∧ d.trait_id = d.binders.value.trait_ref.trait_id :=
  ⟨rfl, rfl, rfl, rfl⟩

/-- C9: building a nominal type declaration and reading its derived type
name yields the cast of the identifier it was built from; and the cast is
injective, so comparing the name against the cast identifier recovers
exactly the original identifier. -/
theorem structDatum_name_roundtrip
    (binders : Binders StructDatumBound) (id : Nat) (flags : StructFlags) :
    (StructDatum.mk binders id flags).name = StructId.cast id
      ∧ ∀ id₂, (StructId.cast id = StructId.cast id₂ ↔ id = id₂) := by
  refine ⟨rfl, fun id₂ => ?_⟩
  constructor
  · intro h
    exact TypeName.struct.inj h
  · intro h
    rw [h]

/-- Witness for C9 at a concrete nominal type declaration. -/
theorem structDatum_name_roundtrip_witness :
    (StructDatum.mk
        { binders := []
          value := { fields := [], where_clauses := [] } }
        42 { upstream := false, fundamental := false }).name
      = StructId.cast 42 :=
  (structDatum_name_roundtrip
      { binders := []
        value := { fields := [], where_clauses := [] } }
      42 { upstream := false, fundamental := false }).1

/-- C10: the two clauses produced by lowering an `AliasEqBound` are
mutually consistent: the trait reference inside the first (`Implemented`)
clause is the very trait reference whose full substitution forms the
trailing segment of the second (`AliasEq`) clause's substitution. -/
theorem aliasEqBound_clauses_mutually_consistent (b : AliasEqBound) (X : Ty) :
    ∃ tr sub₂,
      b.into_where_clauses X
          = [WhereClause.implemented tr,
             WhereClause.aliasEq
               { aliasTy :=
                   { associated_ty_id := b.associated_ty_id, substitution := sub₂ }
                 ty := b.value }]
        ∧ sub₂ = b.parameters.append tr.substitution
        ∧ tr = b.trait_bound.as_trait_ref X :=
  ⟨b.trait_bound.as_trait_ref X,
   b.parameters.append (b.trait_bound.as_trait_ref X).substitution,
   rfl, rfl, rfl⟩

end ChalkRustIr
